import Mathlib

/-!
Verification of the FreeBFD daemon bootstrap (`src/bfdd/bfdd-main.c`) and of
the BFD control-packet codec at the wire-protocol boundary.

The bootstrap code (command-line handling, configuration-file session
descriptors, extension toggles, signal-actor installation) is embedded
directly from `bfdd-main.c`.  Collaborators that `bfdd-main.c` calls but
whose sources are not part of the visible tree (`bfdExtEnable`,
`bfdExtCheck`, `gethostbyname`, `malloc`, `bfdRegisterSession`) are
abstracted into an environment record; the packet codec, which lives in the
non-visible protocol core, is modelled from the specification's wire-format
description.
-/

set_option maxRecDepth 8192

namespace FreeBFD

/-! ## Packet codec -/

/-- Modelled from the spec: the fixed-layout BFD control packet record.  The
codec source file is not part of the visible tree; the fields follow the
spec's wire-protocol description: version, diagnostic code, state, the six
control flags (Poll, Final, ControlPlaneIndependent, AuthPresent, Demand,
Multipoint), detect multiplier, length, local discriminator, remote
discriminator, desired min tx interval, required min rx interval and
required min echo rx interval. -/
structure CtrlPacket where
  version : Nat
  diag : Nat
  state : Nat
  flagPoll : Bool
  flagFinal : Bool
  flagCPI : Bool
  flagAuth : Bool
  flagDemand : Bool
  flagMultipoint : Bool
  detectMult : Nat
  len : Nat
  myDisc : Nat
  yourDisc : Nat
  desiredMinTx : Nat
  requiredMinRx : Nat
  requiredMinEchoRx : Nat
deriving DecidableEq

/-- Big-endian 32-bit value from four wire bytes. -/
def word32 (a b c d : Nat) : Nat := a * 16777216 + b * 65536 + c * 256 + d

/-- Big-endian wire bytes of a 32-bit value. -/
def be32 (w : Nat) : List Nat := [w / 16777216 % 256, w / 65536 % 256, w / 256 % 256, w % 256]

/-- Flag bits of the second packet byte, in wire order (Poll is bit 5). -/
def packFlags (p : CtrlPacket) : Nat :=
  (if p.flagPoll then 32 else 0) + (if p.flagFinal then 16 else 0) +
  (if p.flagCPI then 8 else 0) + (if p.flagAuth then 4 else 0) +
  (if p.flagDemand then 2 else 0) + (if p.flagMultipoint then 1 else 0)

/-- Modelled from the spec: the control-packet encoder.  Byte 0 packs the
3-bit version and 5-bit diagnostic, byte 1 the 2-bit state and the six flag
bits, bytes 2 and 3 are the detect multiplier and the length field, and the
five 32-bit fields follow big-endian. -/
def bfdEncode (p : CtrlPacket) : List Nat :=
  [p.version * 32 + p.diag, p.state * 64 + packFlags p, p.detectMult, p.len]
    ++ be32 p.myDisc ++ be32 p.yourDisc ++ be32 p.desiredMinTx
    ++ be32 p.requiredMinRx ++ be32 p.requiredMinEchoRx

/-- Modelled from the spec: the control-packet decoder.  It fails when the
version is unsupported (the protocol version is 1), when the byte count is
not the mandatory-section size of 24, or when the length field mismatches
the bytes actually read; the mandatory section has no reserved bits.
Semantically questionable but well-formed values (for example a zero
discriminator) are returned untouched. -/
def bfdDecode (bs : List Nat) : Option CtrlPacket :=
  match bs with
  | [b0, b1, b2, b3, m0, m1, m2, m3, y0, y1, y2, y3,
     t0, t1, t2, t3, r0, r1, r2, r3, e0, e1, e2, e3] =>
    if b0 / 32 ≠ 1 then none
    else if b3 ≠ 24 then none
    else some {
      version := b0 / 32, diag := b0 % 32,
      state := b1 / 64,
      flagPoll := b1.testBit 5, flagFinal := b1.testBit 4,
      flagCPI := b1.testBit 3, flagAuth := b1.testBit 2,
      flagDemand := b1.testBit 1, flagMultipoint := b1.testBit 0,
      detectMult := b2, len := b3,
      myDisc := word32 m0 m1 m2 m3, yourDisc := word32 y0 y1 y2 y3,
      desiredMinTx := word32 t0 t1 t2 t3, requiredMinRx := word32 r0 r1 r2 r3,
      requiredMinEchoRx := word32 e0 e1 e2 e3 }
  | _ => none

/-! ## Daemon bootstrap model

Embedding of `main` in `src/bfdd/bfdd-main.c`, from the point where the
configuration file has been read: extension toggles, the per-descriptor
session loop, and the tail of `main` (monitor setup, event loop).  The
C integer casts `(uint32_t)`, `(uint16_t)` and `(uint8_t)` applied to the
`int32_t` values read from the configuration are made explicit. -/

/-- Truncating cast of a C `int` (two's complement) to `uint32_t`. -/
def toUInt32c (v : Int) : Nat := (v % 4294967296).toNat

/-- Truncating cast of a C `int` to `uint16_t`. -/
def toUInt16c (v : Int) : Nat := (v % 65536).toNat

/-- Truncating cast of a C `int` to `uint8_t`. -/
def toUInt8c (v : Int) : Nat := (v % 256).toNat

/-- Result of `gethostbyname` on a peer-address string: lookup failure,
success with a non-`AF_INET` address type, or an IPv4 address. -/
inductive ResolveResult
  | failed
  | notInet
  | inet (addr : Nat)
deriving DecidableEq

/-- Abstraction of the collaborators `bfdd-main.c` calls whose sources are
outside the visible tree: the extension gate (`bfdExtCheck` for the
`SpecifyPorts` capability and the set of names `bfdExtEnable` accepts), name
resolution, allocation success and `bfdRegisterSession` success, plus
whether `config_read_file` succeeded on the configuration file. -/
structure Env where
  configReadable : Bool
  extKnown : String → Bool
  specifyPortsExt : Bool
  resolve : String → ResolveResult
  mallocOk : Bool
  registerOk : Bool

/-- Compile-time session defaults `BFDDFLT_DETECTMULT`,
`BFDDFLT_REQUIREDMINRX` and `BFDDFLT_DESIREDMINTX` from the non-visible
header `bfd.h`, kept symbolic. -/
structure Defaults where
  detectMult : Int
  reqMinRx : Int
  desMinTx : Int

/-- One session descriptor of the configuration file's `Sessions` list:
each field is present or absent, mirroring the `config_setting_lookup_*`
calls. -/
structure SessionConfig where
  peerAddress : Option String
  peerPort : Option Int
  localPort : Option Int
  demandMode : Option Bool
  detectMult : Option Int
  reqMinRx : Option Int
  desMinTx : Option Int

/-- Fields of the `bfdSession` record that `main` populates before calling
`bfdRegisterSession`. -/
structure bfdSession where
  DemandMode : Bool
  DetectMult : Nat
  DesiredMinTxInterval : Nat
  RequiredMinRxInterval : Nat
  PeerAddr : Nat
  PeerPort : Nat
  LocalPort : Nat
deriving DecidableEq

/-- One `continue` branch of the session loop, identified by the warning it
logs. -/
inductive SkipReason
  | missingPeerAddress
  | peerPortRange
  | peerPortNoExt
  | localPortRange
  | localPortNoExt
  | detectMultRange
deriving DecidableEq

/-- One `exit(1)` branch of the session loop. -/
inductive FatalReason
  | resolveFail
  | resolveNotInet
  | mallocFail
  | registerFail
deriving DecidableEq

/-- Outcome of processing one session descriptor. -/
inductive SessionOutcome
  | skipped (r : SkipReason)
  | fatal (r : FatalReason)
  | created (s : bfdSession)
deriving DecidableEq

/-- PeerPort handling (`bfdd-main.c:186-203`): when configured, the value is
rejected first when `(uint32_t)peerPort & 0xffff0000` is nonzero and then
when the `SpecifyPorts` extension is off; when absent it defaults to 3784. -/
def peerPortCheck (ext : Bool) (p : Option Int) : Except SkipReason Int :=
  match p with
  | some v =>
    if toUInt32c v &&& 0xffff0000 ≠ 0 then .error .peerPortRange
    else if ¬ ext then .error .peerPortNoExt
    else .ok v
  | none => .ok 3784

/-- LocalPort handling (`bfdd-main.c:205-221`), same shape as PeerPort. -/
def localPortCheck (ext : Bool) (p : Option Int) : Except SkipReason Int :=
  match p with
  | some v =>
    if toUInt32c v &&& 0xffff0000 ≠ 0 then .error .localPortRange
    else if ¬ ext then .error .localPortNoExt
    else .ok v
  | none => .ok 3784

/-- DetectMult handling (`bfdd-main.c:227-235`): when configured, the value
is rejected when `(uint32_t)detectMult & 0xffffff00` is nonzero; when absent
it defaults to `BFDDFLT_DETECTMULT`. -/
def detectMultCheck (dflt : Defaults) (p : Option Int) : Except SkipReason Int :=
  match p with
  | some v =>
    if toUInt32c v &&& 0xffffff00 ≠ 0 then .error .detectMultRange
    else .ok v
  | none => .ok dflt.detectMult

/-- One iteration of the session loop of `main` (`bfdd-main.c:166-286`):
descriptor field checks in source order, then resolution, allocation,
record population and registration. -/
def processSession (env : Env) (dflt : Defaults) (sn : SessionConfig) : SessionOutcome :=
  match sn.peerAddress with
  | none => .skipped .missingPeerAddress
  | some connectaddr =>
    match peerPortCheck env.specifyPortsExt sn.peerPort with
    | .error r => .skipped r
    | .ok peerPort =>
      match localPortCheck env.specifyPortsExt sn.localPort with
      | .error r => .skipped r
      | .ok localport =>
        let demandMode : Bool := sn.demandMode.getD false
        match detectMultCheck dflt sn.detectMult with
        | .error r => .skipped r
        | .ok detectMult =>
          let reqMinRx : Int := sn.reqMinRx.getD dflt.reqMinRx
          let desMinTx : Int := sn.desMinTx.getD dflt.desMinTx
          match env.resolve connectaddr with
          | .failed => .fatal .resolveFail
          | .notInet => .fatal .resolveNotInet
          | .inet peeraddr =>
            if ¬ env.mallocOk then .fatal .mallocFail
            else
              let bfd : bfdSession := {
                DemandMode := demandMode,
                DetectMult := toUInt8c detectMult,
                DesiredMinTxInterval := toUInt32c desMinTx,
                RequiredMinRxInterval := toUInt32c reqMinRx,
                PeerAddr := peeraddr,
                PeerPort := toUInt16c peerPort,
                LocalPort := toUInt16c localport }
              if ¬ env.registerOk then .fatal .registerFail
              else .created bfd

/-- One entry of the configuration file's `Extensions` list:
`config_setting_name` may be `NULL`, and the entry carries a boolean. -/
structure ExtEntry where
  name : Option String
  value : Bool

/-- Observable events of the modelled run of `main`. -/
inductive Event
  | extWarnUnnamed (i : Nat)
  | extWarnUnknown (name : String)
  | extEnabled (name : String)
  | descStart (i : Nat)
  | warned (i : Nat) (r : SkipReason)
  | sessionRegistered (s : bfdSession)
  | exited (code : Nat)
  | monitorSetup
  | eventLoopStart
deriving DecidableEq

/-- One iteration of the extensions loop (`bfdd-main.c:137-158`): an unnamed
entry is warned about and skipped, a false-valued entry is skipped silently,
and only then is `bfdExtEnable` attempted, warning when the name is
unknown. -/
def extEntryEvents (known : String → Bool) (i : Nat) (e : ExtEntry) : List Event :=
  match e.name with
  | none => [.extWarnUnnamed i]
  | some nm =>
    if ¬ e.value then []
    else if known nm then [.extEnabled nm]
    else [.extWarnUnknown nm]

/-- The extensions loop over the whole `Extensions` list. -/
def extEvents (known : String → Bool) : Nat → List ExtEntry → List Event
  | _, [] => []
  | i, e :: rest => extEntryEvents known i e ++ extEvents known (i + 1) rest

/-- Events of the session loop starting at descriptor index `i`: a skipped
descriptor logs its warning and the loop continues, a fatal descriptor ends
the process with `exit(1)`, a created session is registered at once. -/
def sessionsEvents (env : Env) (dflt : Defaults) : Nat → List SessionConfig → List Event
  | _, [] => []
  | i, sn :: rest =>
    match processSession env dflt sn with
    | .skipped r => .descStart i :: .warned i r :: sessionsEvents env dflt (i + 1) rest
    | .fatal _ => [.descStart i, .exited 1]
    | .created s => .descStart i :: .sessionRegistered s :: sessionsEvents env dflt (i + 1) rest

/-- Whether the session loop reaches an `exit(1)` branch. -/
def runFatal (env : Env) (dflt : Defaults) : List SessionConfig → Bool
  | [] => false
  | sn :: rest =>
    match processSession env dflt sn with
    | .fatal _ => true
    | _ => runFatal env dflt rest

/-- The configuration file's content relevant to `main`: the `Extensions`
and `Sessions` lists. -/
structure Config where
  extensions : List ExtEntry
  sessions : List SessionConfig

/-- Event trace of `main` from the `config_read_file` call onward
(`bfdd-main.c:122-297`): an unreadable or malformed configuration file is
`exit(1)`; otherwise the extensions loop runs, then the session loop, and
when no session was fatal the monitor server is set up and the event loop
(which never returns) is entered. -/
def mainTrace (env : Env) (dflt : Defaults) (cfg : Config) : List Event :=
  if ¬ env.configReadable then [.exited 1]
  else
    extEvents env.extKnown 0 cfg.extensions ++
    sessionsEvents env dflt 0 cfg.sessions ++
    (if runFatal env dflt cfg.sessions then [] else [.monitorSetup, .eventLoopStart])

/-- Outcome of handling one `-x` command-line option
(`bfdd-main.c:83-89`): an unknown extension name prints usage and exits
with status 1. -/
inductive OptXResult
  | ok
  | usageExit (code : Nat)
deriving DecidableEq

/-- Handling of the `-x` option argument in the `getopt` loop. -/
def handleOptX (known : String → Bool) (arg : String) : OptXResult :=
  if known arg then .ok else .usageExit 1

/-- The two process-control signal actors. -/
inductive SignalAction
  | startPollSequence
  | toggleAdminDown
deriving DecidableEq

/-- Signal number of `SIGUSR1` (Linux). -/
def SIGUSR1 : Nat := 10

/-- Signal number of `SIGUSR2` (Linux). -/
def SIGUSR2 : Nat := 12

/-- The `tpSetSignalActor` calls of `main` (`bfdd-main.c:116-117`), in
source order. -/
def installedSignalActions : List (Nat × SignalAction) :=
  [(SIGUSR1, .startPollSequence), (SIGUSR2, .toggleAdminDown)]

/-- Per-session state touched by the two signal actors. -/
structure SessState where
  demandModeDesired : Bool
  pollInProgress : Bool
  adminDown : Bool
deriving DecidableEq

/-- Modelled from the spec: `bfdStartPollSequence` (its source is outside
the visible tree) forces a poll sequence on every demand-mode session and
leaves the others untouched. -/
def bfdStartPollSequence (ss : List SessState) : List SessState :=
  ss.map fun s =>
    if s.demandModeDesired then { s with pollInProgress := true } else s

/-- Modelled from the spec: `bfdToggleAdminDown` (its source is outside the
visible tree) toggles administrative-down on every session. -/
def bfdToggleAdminDown (ss : List SessState) : List SessState :=
  ss.map fun s => { s with adminDown := !s.adminDown }

/-- Meaning of each installed signal actor on the session table. -/
def signalSemantics : SignalAction → List SessState → List SessState
  | .startPollSequence => bfdStartPollSequence
  | .toggleAdminDown => bfdToggleAdminDown

/-! ## Concrete inputs used by witnesses and counterexamples -/

/-- Wire bytes of a concrete valid control packet. -/
def c7bytes : List Nat :=
  [37, 201, 3, 24, 0, 0, 0, 5, 0, 0, 0, 0,
   0, 1, 134, 160, 0, 1, 134, 160, 0, 0, 0, 0]

/-- Decoded record of `c7bytes`. -/
def c7packet : CtrlPacket :=
  { version := 1, diag := 5, state := 3,
    flagPoll := false, flagFinal := false, flagCPI := true,
    flagAuth := false, flagDemand := false, flagMultipoint := true,
    detectMult := 3, len := 24, myDisc := 5, yourDisc := 0,
    desiredMinTx := 100000, requiredMinRx := 100000, requiredMinEchoRx := 0 }

/-- Concrete environment for concrete runs: the configuration file reads
fine, no extension name is known, the SpecifyPorts capability is off, every
peer address resolves to the IPv4 address 10.0.0.1, and allocation and
registration succeed. -/
def envNoExt : Env :=
  { configReadable := true, extKnown := fun _ => false,
    specifyPortsExt := false, resolve := fun _ => .inet 167772161,
    mallocOk := true, registerOk := true }

/-- The same concrete environment with the SpecifyPorts capability on. -/
def envExt : Env := { envNoExt with specifyPortsExt := true }

/-- Concrete compile-time defaults. -/
def dfltC : Defaults := { detectMult := 2, reqMinRx := 50000, desMinTx := 50000 }

/-- Descriptor with only the peer address present. -/
def snPlain : SessionConfig :=
  { peerAddress := some "peer", peerPort := none, localPort := none,
    demandMode := none, detectMult := none, reqMinRx := none, desMinTx := none }

/-- Descriptor with a peer port configured. -/
def snPeerPort : SessionConfig := { snPlain with peerPort := some 4000 }

/-- Descriptor with a detect multiplier of zero configured. -/
def snDetectZero : SessionConfig := { snPlain with detectMult := some 0 }

/-- Descriptor with an out-of-range peer port configured. -/
def snBigPort : SessionConfig := { snPlain with peerPort := some 70000 }

/-- Descriptor with no peer address. -/
def snNoAddr : SessionConfig := { snPlain with peerAddress := none }

/-- Concrete environment in which name resolution fails. -/
def envResolveFail : Env := { envNoExt with resolve := fun _ => .failed }

/-- Session record created for `snPlain` under `envNoExt` and `dfltC`. -/
def sPlainCreated : bfdSession :=
  { DemandMode := false, DetectMult := 2, DesiredMinTxInterval := 50000,
    RequiredMinRxInterval := 50000, PeerAddr := 167772161,
    PeerPort := 3784, LocalPort := 3784 }

/-! ## Codec lemmas -/

/-- Recomposing the state/flags byte from its decoded parts restores it. -/
lemma flags_byte_recompose : ∀ b < 256, b / 64 * 64 +
    ((if b.testBit 5 then 32 else 0) + (if b.testBit 4 then 16 else 0) +
     (if b.testBit 3 then 8 else 0) + (if b.testBit 2 then 4 else 0) +
     (if b.testBit 1 then 2 else 0) + (if b.testBit 0 then 1 else 0)) = b := by
  decide

/-- Re-encoding a decoded big-endian word restores the four bytes. -/
lemma be32_word32 (a b c d : Nat) (ha : a < 256) (hb : b < 256) (hc : c < 256)
    (hd : d < 256) : be32 (word32 a b c d) = [a, b, c, d] := by
  simp only [be32, word32, List.cons.injEq, and_true]
  refine ⟨?_, ?_, ?_, ?_⟩ <;> omega

/-! ## Bit-mask lemmas

The session loop tests ports and the detect multiplier with C bit masks;
these lemmas relate the masks to value ranges. -/

/-- The high mask `2^32 - 2^k` is the low mask `2^(32-k) - 1` shifted. -/
lemma mask_hi_eq (k : Nat) (hk : k ≤ 32) :
    (2 : Nat) ^ 32 - 2 ^ k = (2 ^ (32 - k) - 1) <<< k := by
  rw [Nat.shiftLeft_eq, Nat.sub_mul, one_mul, ← pow_add]
  congr 2
  omega

/-- Conjunction with a high mask keeps exactly the bits above `k`. -/
lemma and_high_mask (k n : Nat) (hk : k ≤ 32) (hn : n < 2 ^ 32) :
    n &&& (2 ^ 32 - 2 ^ k) = n / 2 ^ k * 2 ^ k := by
  have hrs : n / 2 ^ k * 2 ^ k = (n >>> k) <<< k := by
    rw [Nat.shiftRight_eq_div_pow, Nat.shiftLeft_eq]
  rw [mask_hi_eq k hk, hrs]
  apply Nat.eq_of_testBit_eq
  intro i
  rw [Nat.testBit_and, Nat.testBit_shiftLeft, Nat.testBit_shiftLeft,
      Nat.testBit_shiftRight, Nat.testBit_two_pow_sub_one]
  by_cases hik : k ≤ i
  · have hrw : k + (i - k) = i := by omega
    by_cases hi32 : i < 32
    · simp [ge_iff_le, hik, hrw, show i - k < 32 - k by omega]
    · have hbf : n.testBit i = false := by
        apply Nat.testBit_eq_false_of_lt
        calc n < 2 ^ 32 := hn
          _ ≤ 2 ^ i := Nat.pow_le_pow_right (by norm_num) (by omega)
      simp [ge_iff_le, hik, hrw, hbf, show ¬ (i - k < 32 - k) by omega]
  · simp [ge_iff_le, hik]

/-- A masked value is zero exactly when the value fits below bit `k`. -/
lemma and_high_mask_eq_zero_iff (k n : Nat) (hk : k ≤ 32) (hn : n < 2 ^ 32) :
    (n &&& (2 ^ 32 - 2 ^ k) = 0) ↔ n < 2 ^ k := by
  rw [and_high_mask k n hk hn]
  have hpos : 0 < (2 : Nat) ^ k := Nat.pos_pow_of_pos k (by norm_num)
  constructor
  · intro h
    rcases Nat.mul_eq_zero.mp h with h1 | h2
    · exact (Nat.div_eq_zero_iff hpos).mp h1
    · omega
  · intro h
    rw [Nat.div_eq_of_lt h, Nat.zero_mul]

/-- The truncating `uint32_t` cast lands below `2^32`. -/
lemma toUInt32c_lt (v : Int) : toUInt32c v < 4294967296 := by
  unfold toUInt32c
  omega

/-- The port-range test of the session loop: for an `int32_t` value the mask
`0xffff0000` is clear exactly when the value lies in 0–65535. -/
lemma port_mask_iff (v : Int) (h1 : -2147483648 ≤ v) (h2 : v < 2147483648) :
    (toUInt32c v &&& 0xffff0000 = 0) ↔ (0 ≤ v ∧ v ≤ 65535) := by
  have hmask : (0xffff0000 : Nat) = 2 ^ 32 - 2 ^ 16 := by norm_num
  have hlt : toUInt32c v < 2 ^ 32 := by
    have := toUInt32c_lt v
    norm_num
    omega
  rw [hmask, and_high_mask_eq_zero_iff 16 _ (by norm_num) hlt]
  unfold toUInt32c
  have h16 : (2 : Nat) ^ 16 = 65536 := by norm_num
  rw [h16]
  omega

/-- The detect-multiplier test of the session loop: for an `int32_t` value
the mask `0xffffff00` is clear exactly when the value lies in 0–255. -/
lemma detect_mask_iff (v : Int) (h1 : -2147483648 ≤ v) (h2 : v < 2147483648) :
    (toUInt32c v &&& 0xffffff00 = 0) ↔ (0 ≤ v ∧ v ≤ 255) := by
  have hmask : (0xffffff00 : Nat) = 2 ^ 32 - 2 ^ 8 := by norm_num
  have hlt : toUInt32c v < 2 ^ 32 := by
    have := toUInt32c_lt v
    norm_num
    omega
  rw [hmask, and_high_mask_eq_zero_iff 8 _ (by norm_num) hlt]
  unfold toUInt32c
  have h8 : (2 : Nat) ^ 8 = 256 := by norm_num
  rw [h8]
  omega

/-! ## Trace lemmas -/

/-- The session loop distributes over list append as long as the first part
hits no fatal branch. -/
lemma sessionsEvents_append (env : Env) (dflt : Defaults)
    (pre post : List SessionConfig) (i : Nat)
    (h : runFatal env dflt pre = false) :
    sessionsEvents env dflt i (pre ++ post) =
      sessionsEvents env dflt i pre ++
        sessionsEvents env dflt (i + pre.length) post := by
  induction pre generalizing i with
  | nil => simp [sessionsEvents]
  | cons sn rest ih =>
    rw [List.cons_append]
    cases hps : processSession env dflt sn with
    | skipped r =>
      simp only [runFatal, hps] at h
      simp only [sessionsEvents, hps, List.cons_append, List.length_cons]
      rw [ih _ h]
      have harith : i + 1 + rest.length = i + (rest.length + 1) := by omega
      rw [harith]
    | fatal r =>
      simp only [runFatal, hps] at h
      exact Bool.noConfusion h
    | created s =>
      simp only [runFatal, hps] at h
      simp only [sessionsEvents, hps, List.cons_append, List.length_cons]
      rw [ih _ h]
      have harith : i + 1 + rest.length = i + (rest.length + 1) := by omega
      rw [harith]

/-- Fatality of an appended session list, when the first part is clean. -/
lemma runFatal_append (env : Env) (dflt : Defaults)
    (pre post : List SessionConfig)
    (h : runFatal env dflt pre = false) :
    runFatal env dflt (pre ++ post) = runFatal env dflt post := by
  induction pre with
  | nil => rfl
  | cons sn rest ih =>
    cases hps : processSession env dflt sn with
    | skipped r =>
      simp only [runFatal, hps] at h
      simp only [List.cons_append, runFatal, hps]
      exact ih h
    | fatal r =>
      simp only [runFatal, hps] at h
      exact Bool.noConfusion h
    | created s =>
      simp only [runFatal, hps] at h
      simp only [List.cons_append, runFatal, hps]
      exact ih h

/-- The extensions loop never starts the event loop. -/
lemma not_loop_in_extEvents (known : String → Bool) :
    ∀ i es, Event.eventLoopStart ∉ extEvents known i es := by
  intro i es
  induction es generalizing i with
  | nil => simp [extEvents]
  | cons e rest ih =>
    simp only [extEvents, List.mem_append]
    rintro (h | h)
    · revert h
      unfold extEntryEvents
      rcases e with ⟨nm, v⟩
      rcases nm with _ | nm
      · simp
      · dsimp only
        split
        · simp
        · split <;> simp
    · exact ih (i + 1) h

/-- The session loop never starts the event loop. -/
lemma not_loop_in_sessionsEvents (env : Env) (dflt : Defaults) :
    ∀ i sns, Event.eventLoopStart ∉ sessionsEvents env dflt i sns := by
  intro i sns
  induction sns generalizing i with
  | nil => simp [sessionsEvents]
  | cons sn rest ih =>
    cases hps : processSession env dflt sn with
    | skipped r =>
      simp only [sessionsEvents, hps, List.mem_cons]
      rintro (h | h | h)
      · exact Event.noConfusion h
      · exact Event.noConfusion h
      · exact ih (i + 1) h
    | fatal r =>
      simp [sessionsEvents, hps]
    | created s =>
      simp only [sessionsEvents, hps, List.mem_cons]
      rintro (h | h | h)
      · exact Event.noConfusion h
      · exact Event.noConfusion h
      · exact ih (i + 1) h

/-- A clean run ends by entering the event loop. -/
lemma mainTrace_getLast (env : Env) (dflt : Defaults) (cfg : Config)
    (hr : env.configReadable = true)
    (hf : runFatal env dflt cfg.sessions = false) :
    (mainTrace env dflt cfg).getLast? = some .eventLoopStart := by
  unfold mainTrace
  rw [hr, hf]
  simp [List.getLast?_append]

/-! ## Claims -/

/-- C7: for every syntactically valid control packet, that is every byte
sequence the decoder accepts, encoding the decoded record yields the
original bytes again: Encode(Decode(p)) == p. -/
theorem C7_decode_encode_roundtrip (bs : List Nat) (p : CtrlPacket)
    (hd : bfdDecode bs = some p) (hb : ∀ b ∈ bs, b < 256) :
    bfdEncode p = bs := by
  unfold bfdDecode at hd
  split at hd
  next b0 b1 b2 b3 m0 m1 m2 m3 y0 y1 y2 y3 t0 t1 t2 t3 r0 r1 r2 r3 e0 e1 e2 e3 =>
    split at hd
    · exact Option.noConfusion hd
    split at hd
    · exact Option.noConfusion hd
    injection hd with hd
    subst hd
    have hB1 : b1 < 256 := hb b1 (by simp)
    have hm0 : m0 < 256 := hb m0 (by simp)
    have hm1 : m1 < 256 := hb m1 (by simp)
    have hm2 : m2 < 256 := hb m2 (by simp)
    have hm3 : m3 < 256 := hb m3 (by simp)
    have hy0 : y0 < 256 := hb y0 (by simp)
    have hy1 : y1 < 256 := hb y1 (by simp)
    have hy2 : y2 < 256 := hb y2 (by simp)
    have hy3 : y3 < 256 := hb y3 (by simp)
    have ht0 : t0 < 256 := hb t0 (by simp)
    have ht1 : t1 < 256 := hb t1 (by simp)
    have ht2 : t2 < 256 := hb t2 (by simp)
    have ht3 : t3 < 256 := hb t3 (by simp)
    have hr0 : r0 < 256 := hb r0 (by simp)
    have hr1 : r1 < 256 := hb r1 (by simp)
    have hr2 : r2 < 256 := hb r2 (by simp)
    have hr3 : r3 < 256 := hb r3 (by simp)
    have he0 : e0 < 256 := hb e0 (by simp)
    have he1 : e1 < 256 := hb e1 (by simp)
    have he2 : e2 < 256 := hb e2 (by simp)
    have he3 : e3 < 256 := hb e3 (by simp)
    simp only [bfdEncode, packFlags]
    rw [be32_word32 m0 m1 m2 m3 hm0 hm1 hm2 hm3,
        be32_word32 y0 y1 y2 y3 hy0 hy1 hy2 hy3,
        be32_word32 t0 t1 t2 t3 ht0 ht1 ht2 ht3,
        be32_word32 r0 r1 r2 r3 hr0 hr1 hr2 hr3,
        be32_word32 e0 e1 e2 e3 he0 he1 he2 he3]
    simp only [List.cons_append, List.nil_append, List.cons.injEq, and_true,
      List.append_assoc]
    exact ⟨by omega, flags_byte_recompose b1 hB1⟩
  next =>
    exact Option.noConfusion hd

/-- Witness for C7 at a concrete packet. -/
theorem C7_roundtrip_witness : bfdEncode c7packet = c7bytes :=
  C7_decode_encode_roundtrip c7bytes c7packet (by decide) (by decide)

/-- C1 counterexample: with the SpecifyPorts extension off, a descriptor
that specifies an in-range peer port is skipped with a warning and the run
still reaches the event loop; the process never exits with a nonzero
status, refuting the claim that such a configuration is startup-fatal. -/
theorem C1_counterexample :
    processSession envNoExt dfltC snPeerPort = .skipped .peerPortNoExt ∧
    mainTrace envNoExt dfltC ⟨[], [snPeerPort]⟩ =
      [.descStart 0, .warned 0 .peerPortNoExt, .monitorSetup, .eventLoopStart] ∧
    Event.exited 1 ∉ mainTrace envNoExt dfltC ⟨[], [snPeerPort]⟩ := by
  refine ⟨by decide, by decide, by decide⟩

/-- C1 (amended): a session descriptor that specifies an in-range peer port
or local port while the SpecifyPorts extension is not enabled is skipped
with a warning — no session is created, the remaining descriptors are still
processed, and the skip contributes no exit. -/
theorem C1_amended_port_without_capability (env : Env) (dflt : Defaults)
    (sn : SessionConfig) (a : String) (p : Int)
    (hext : env.specifyPortsExt = false)
    (ha : sn.peerAddress = some a) :
    (sn.peerPort = some p → toUInt32c p &&& 0xffff0000 = 0 →
      processSession env dflt sn = .skipped .peerPortNoExt) ∧
    (sn.peerPort = none → sn.localPort = some p → toUInt32c p &&& 0xffff0000 = 0 →
      processSession env dflt sn = .skipped .localPortNoExt) ∧
    (∀ r i post, processSession env dflt sn = .skipped r →
      sessionsEvents env dflt i (sn :: post) =
        .descStart i :: .warned i r :: sessionsEvents env dflt (i + 1) post ∧
      runFatal env dflt (sn :: post) = runFatal env dflt post) := by
  refine ⟨?_, ?_, ?_⟩
  · intro hp hmask
    simp [processSession, peerPortCheck, ha, hp, hmask, hext]
  · intro hpn hl hmask
    simp [processSession, peerPortCheck, localPortCheck, ha, hpn, hl, hmask, hext]
  · intro r i post hskip
    exact ⟨by simp [sessionsEvents, hskip], by simp [runFatal, hskip]⟩

/-- Witness for the amended C1 at a concrete descriptor. -/
theorem C1_amended_witness :
    processSession envNoExt dfltC snPeerPort = .skipped .peerPortNoExt :=
  (C1_amended_port_without_capability envNoExt dfltC snPeerPort "peer" 4000
    rfl rfl).1 rfl (by decide)

/-- C8: a descriptor lacking a peer address is skipped with a warning, the
remaining descriptors are still processed, and the skip contributes no
exit. -/
theorem C8_missing_peer_address_skipped (env : Env) (dflt : Defaults)
    (sn : SessionConfig) (h : sn.peerAddress = none) :
    processSession env dflt sn = .skipped .missingPeerAddress ∧
    (∀ i post, sessionsEvents env dflt i (sn :: post) =
      .descStart i :: .warned i .missingPeerAddress ::
        sessionsEvents env dflt (i + 1) post) ∧
    (∀ post, runFatal env dflt (sn :: post) = runFatal env dflt post) := by
  have hps : processSession env dflt sn = .skipped .missingPeerAddress := by
    simp [processSession, h]
  exact ⟨hps, fun i post => by simp [sessionsEvents, hps],
    fun post => by simp [runFatal, hps]⟩

/-- Witness for C8 at a concrete descriptor followed by another one. -/
theorem C8_witness :
    processSession envNoExt dfltC snNoAddr = .skipped .missingPeerAddress ∧
    sessionsEvents envNoExt dfltC 0 [snNoAddr, snPlain] =
      .descStart 0 :: .warned 0 .missingPeerAddress ::
        sessionsEvents envNoExt dfltC 1 [snPlain] :=
  ⟨(C8_missing_peer_address_skipped envNoExt dfltC snNoAddr rfl).1,
   (C8_missing_peer_address_skipped envNoExt dfltC snNoAddr rfl).2.1 0 [snPlain]⟩

/-- C9: a configured peer port or local port outside 0–65535 skips the
session whatever the value of the SpecifyPorts capability, and the skip
reason is the range warning, not the capability warning: the range test
precedes the capability test. -/
theorem C9_port_range_before_capability (env : Env) (dflt : Defaults)
    (sn : SessionConfig) (a : String) (p : Int)
    (ha : sn.peerAddress = some a)
    (hlo : -2147483648 ≤ p) (hhi : p < 2147483648)
    (hout : p < 0 ∨ 65535 < p) :
    (sn.peerPort = some p → processSession env dflt sn = .skipped .peerPortRange) ∧
    (sn.peerPort = none → sn.localPort = some p →
      processSession env dflt sn = .skipped .localPortRange) := by
  have hmask : toUInt32c p &&& 0xffff0000 ≠ 0 := by
    intro h
    rcases (port_mask_iff p hlo hhi).mp h with ⟨h1, h2⟩
    omega
  constructor
  · intro hp
    simp [processSession, peerPortCheck, ha, hp, hmask]
  · intro hpn hl
    simp [processSession, peerPortCheck, localPortCheck, ha, hpn, hl, hmask]

/-- Witness for C9: port 70000 is skipped for range even with the
SpecifyPorts capability enabled. -/
theorem C9_witness :
    processSession envExt dfltC snBigPort = .skipped .peerPortRange :=
  (C9_port_range_before_capability envExt dfltC snBigPort "peer" 70000 rfl
    (by norm_num) (by norm_num) (Or.inr (by norm_num))).1 rfl

/-- C2 counterexample: the configured detect multiplier 0 lies outside
1–255, yet the descriptor is not rejected — the session is created and
carries `DetectMult = 0`. -/
theorem C2_counterexample :
    snDetectZero.detectMult = some 0 ∧
    processSession envNoExt dfltC snDetectZero =
      .created { DemandMode := false, DetectMult := 0,
                 DesiredMinTxInterval := 50000, RequiredMinRxInterval := 50000,
                 PeerAddr := 167772161, PeerPort := 3784, LocalPort := 3784 } :=
  ⟨rfl, by decide⟩

/-- C2 (amended): a configured detect-multiplier value is accepted exactly
when it lies in 0–255, the unsigned 8-bit range: outside it the descriptor
is skipped, inside it the descriptor is not skipped for the multiplier and
any session created carries the configured value. -/
theorem C2_amended_detect_mult_range (env : Env) (dflt : Defaults)
    (sn : SessionConfig) (a : String) (v pp lp : Int)
    (ha : sn.peerAddress = some a)
    (hdm : sn.detectMult = some v)
    (hlo : -2147483648 ≤ v) (hhi : v < 2147483648)
    (hpp : peerPortCheck env.specifyPortsExt sn.peerPort = .ok pp)
    (hlp : localPortCheck env.specifyPortsExt sn.localPort = .ok lp) :
    (¬ (0 ≤ v ∧ v ≤ 255) →
      processSession env dflt sn = .skipped .detectMultRange) ∧
    ((0 ≤ v ∧ v ≤ 255) →
      processSession env dflt sn ≠ .skipped .detectMultRange ∧
      ∀ s, processSession env dflt sn = .created s → s.DetectMult = v.toNat) := by
  constructor
  · intro hout
    have hmask : toUInt32c v &&& 0xffffff00 ≠ 0 := by
      intro h
      exact hout ((detect_mask_iff v hlo hhi).mp h)
    simp [processSession, detectMultCheck, ha, hdm, hpp, hlp, hmask]
  · rintro ⟨h0, h255⟩
    have hmask : toUInt32c v &&& 0xffffff00 = 0 :=
      (detect_mask_iff v hlo hhi).mpr ⟨h0, h255⟩
    have hred : processSession env dflt sn =
        match env.resolve a with
        | .failed => .fatal .resolveFail
        | .notInet => .fatal .resolveNotInet
        | .inet peeraddr =>
          if ¬ env.mallocOk then .fatal .mallocFail
          else if ¬ env.registerOk then .fatal .registerFail
          else .created {
            DemandMode := sn.demandMode.getD false,
            DetectMult := toUInt8c v,
            DesiredMinTxInterval := toUInt32c (sn.desMinTx.getD dflt.desMinTx),
            RequiredMinRxInterval := toUInt32c (sn.reqMinRx.getD dflt.reqMinRx),
            PeerAddr := peeraddr,
            PeerPort := toUInt16c pp,
            LocalPort := toUInt16c lp } := by
      simp [processSession, detectMultCheck, ha, hdm, hpp, hlp, hmask]
    rw [hred]
    have h8 : toUInt8c v = v.toNat := by
      unfold toUInt8c
      omega
    cases hres : env.resolve a with
    | failed => exact ⟨fun h => SessionOutcome.noConfusion h, fun s h => SessionOutcome.noConfusion h⟩
    | notInet => exact ⟨fun h => SessionOutcome.noConfusion h, fun s h => SessionOutcome.noConfusion h⟩
    | inet addr =>
      by_cases hm : env.mallocOk
      · by_cases hr : env.registerOk
        · refine ⟨by simp [hm, hr], ?_⟩
          intro s h
          simp only [hm, hr, not_true, if_false, if_neg, Bool.not_eq_true] at h
          have h2 := h
          simp at h2
          rw [← h2, h8]
        · exact ⟨by simp [hm, hr], fun s h => by simp [hm, hr] at h⟩
      · exact ⟨by simp [hm], fun s h => by simp [hm] at h⟩

/-- Witness for the amended C2: detect multiplier 0 is accepted and carried
into the created session. -/
theorem C2_amended_witness :
    processSession envNoExt dfltC snDetectZero ≠ .skipped .detectMultRange :=
  ((C2_amended_detect_mult_range envNoExt dfltC snDetectZero "peer" 0 3784 3784
    rfl rfl (by norm_num) (by norm_num) rfl rfl).2 ⟨by norm_num, by norm_num⟩).1

/-- C3: startup is fatal — the run ends in `exit(1)` and never reaches the
event loop — when the configuration file is unreadable or malformed, when a
descriptor's peer address fails to resolve or resolves to a non-IPv4
address, and when allocation or registration fails during session
creation. -/
theorem C3_startup_fatal (env : Env) (dflt : Defaults) (cfg : Config)
    (sn : SessionConfig) (a : String) (pp lp dm : Int)
    (ha : sn.peerAddress = some a)
    (hpp : peerPortCheck env.specifyPortsExt sn.peerPort = .ok pp)
    (hlp : localPortCheck env.specifyPortsExt sn.localPort = .ok lp)
    (hdm : detectMultCheck dflt sn.detectMult = .ok dm) :
    (env.configReadable = false → mainTrace env dflt cfg = [.exited 1]) ∧
    (env.resolve a = .failed → processSession env dflt sn = .fatal .resolveFail) ∧
    (env.resolve a = .notInet → processSession env dflt sn = .fatal .resolveNotInet) ∧
    (∀ addr, env.resolve a = .inet addr → env.mallocOk = false →
      processSession env dflt sn = .fatal .mallocFail) ∧
    (∀ addr, env.resolve a = .inet addr → env.mallocOk = true →
      env.registerOk = false → processSession env dflt sn = .fatal .registerFail) ∧
    (∀ fr pre post, processSession env dflt sn = .fatal fr →
      runFatal env dflt pre = false → env.configReadable = true →
      mainTrace env dflt ⟨cfg.extensions, pre ++ sn :: post⟩ =
        extEvents env.extKnown 0 cfg.extensions ++
          (sessionsEvents env dflt 0 pre ++ [.descStart pre.length, .exited 1])) := by
  refine ⟨?_, ?_, ?_, ?_, ?_, ?_⟩
  · intro h
    simp [mainTrace, h]
  · intro h
    simp [processSession, ha, hpp, hlp, hdm, h]
  · intro h
    simp [processSession, ha, hpp, hlp, hdm, h]
  · intro addr h hm
    simp [processSession, ha, hpp, hlp, hdm, h, hm]
  · intro addr h hm hr
    simp [processSession, ha, hpp, hlp, hdm, h, hm, hr]
  · intro fr pre post hfatal hpre hread
    have hfat2 : runFatal env dflt (pre ++ sn :: post) = true := by
      rw [runFatal_append env dflt pre (sn :: post) hpre]
      simp [runFatal, hfatal]
    have hev : sessionsEvents env dflt 0 (pre ++ sn :: post) =
        sessionsEvents env dflt 0 pre ++ [.descStart pre.length, .exited 1] := by
      rw [sessionsEvents_append env dflt pre (sn :: post) 0 hpre]
      simp [sessionsEvents, hfatal]
    unfold mainTrace
    rw [hread, hfat2]
    simp [hev]

/-- Witness for C3: resolution failure on a minimal descriptor is fatal. -/
theorem C3_witness :
    processSession envResolveFail dfltC snPlain = .fatal .resolveFail :=
  (C3_startup_fatal envResolveFail dfltC ⟨[], []⟩ snPlain "peer" 3784 3784 2
    rfl rfl rfl rfl).2.1 rfl

/-- C4: a descriptor with every optional field omitted yields a session
record carrying peer port 3784, local port 3784, demand mode off, and the
compile-time defaults for the detect multiplier and the two intervals. -/
theorem C4_defaults_applied (env : Env) (dflt : Defaults) (a : String) (addr : Nat)
    (hres : env.resolve a = .inet addr)
    (hm : env.mallocOk = true) (hreg : env.registerOk = true)
    (hd1 : 0 ≤ dflt.detectMult) (hd2 : dflt.detectMult ≤ 255)
    (hr1 : 0 ≤ dflt.reqMinRx) (hr2 : dflt.reqMinRx < 4294967296)
    (ht1 : 0 ≤ dflt.desMinTx) (ht2 : dflt.desMinTx < 4294967296) :
    processSession env dflt
      { peerAddress := some a, peerPort := none, localPort := none,
        demandMode := none, detectMult := none, reqMinRx := none,
        desMinTx := none } =
      .created { DemandMode := false, DetectMult := dflt.detectMult.toNat,
                 DesiredMinTxInterval := dflt.desMinTx.toNat,
                 RequiredMinRxInterval := dflt.reqMinRx.toNat,
                 PeerAddr := addr, PeerPort := 3784, LocalPort := 3784 } := by
  simp only [processSession, peerPortCheck, localPortCheck, detectMultCheck,
    Option.getD_none, hres, hm, hreg, not_true, if_neg, if_false,
    Bool.not_eq_true]
  simp only [SessionOutcome.created.injEq, bfdSession.mk.injEq]
  unfold toUInt8c toUInt16c toUInt32c
  refine ⟨trivial, by omega, by omega, by omega, trivial, by omega, by omega⟩

/-- Witness for C4 at the concrete defaults. -/
theorem C4_witness :
    processSession envNoExt dfltC snPlain =
      .created { DemandMode := false, DetectMult := 2,
                 DesiredMinTxInterval := 50000, RequiredMinRxInterval := 50000,
                 PeerAddr := 167772161, PeerPort := 3784, LocalPort := 3784 } :=
  C4_defaults_applied envNoExt dfltC "peer" 167772161 rfl rfl rfl
    (by decide) (by decide) (by decide) (by decide) (by decide) (by decide)

/-- C5: `main` installs exactly two process-control signal actors — SIGUSR1
mapped to the poll-sequence action, which forces a poll sequence on exactly
the demand-mode sessions, and SIGUSR2 mapped to the admin-down action,
which toggles administrative-down on every session. -/
theorem C5_signal_actions :
    installedSignalActions.length = 2 ∧
    installedSignalActions.lookup SIGUSR1 = some .startPollSequence ∧
    installedSignalActions.lookup SIGUSR2 = some .toggleAdminDown ∧
    (∀ ss s, s ∈ ss → s.demandModeDesired = true →
      { s with pollInProgress := true } ∈ signalSemantics .startPollSequence ss) ∧
    (∀ ss s, s ∈ ss → s.demandModeDesired = false →
      s ∈ signalSemantics .startPollSequence ss) ∧
    (∀ ss s, s ∈ ss →
      { s with adminDown := !s.adminDown } ∈ signalSemantics .toggleAdminDown ss) := by
  refine ⟨rfl, rfl, rfl, ?_, ?_, ?_⟩
  · intro ss s hmem hdm
    have h := List.mem_map_of_mem
      (fun t => if t.demandModeDesired then { t with pollInProgress := true } else t)
      hmem
    simpa [signalSemantics, bfdStartPollSequence, hdm] using h
  · intro ss s hmem hdm
    have h := List.mem_map_of_mem
      (fun t => if t.demandModeDesired then { t with pollInProgress := true } else t)
      hmem
    simpa [signalSemantics, bfdStartPollSequence, hdm] using h
  · intro ss s hmem
    have h := List.mem_map_of_mem (fun t => { t with adminDown := !t.adminDown }) hmem
    simpa [signalSemantics, bfdToggleAdminDown] using h

/-- Witness for C5 on a one-session table in demand mode. -/
theorem C5_witness :
    (⟨true, true, false⟩ : SessState) ∈
      signalSemantics .startPollSequence [⟨true, false, false⟩] :=
  C5_signal_actions.2.2.2.1 [⟨true, false, false⟩] ⟨true, false, false⟩
    (by simp) rfl

/-- C6: a session created from a static-configuration descriptor is
registered immediately: in the trace of `main`, its registration event
directly follows its descriptor's start, before any event of the following
descriptors and before the event loop starts; the event loop never appears
among the earlier events. -/
theorem C6_registered_immediately (env : Env) (dflt : Defaults)
    (exts : List ExtEntry) (pre post : List SessionConfig)
    (sn : SessionConfig) (s : bfdSession)
    (hread : env.configReadable = true)
    (hpre : runFatal env dflt pre = false)
    (hcr : processSession env dflt sn = .created s) :
    mainTrace env dflt ⟨exts, pre ++ sn :: post⟩ =
      extEvents env.extKnown 0 exts ++
        (sessionsEvents env dflt 0 pre ++
          (.descStart pre.length :: .sessionRegistered s ::
            (sessionsEvents env dflt (pre.length + 1) post ++
              (if runFatal env dflt post then []
               else [.monitorSetup, .eventLoopStart])))) ∧
    Event.eventLoopStart ∉ extEvents env.extKnown 0 exts ∧
    Event.eventLoopStart ∉ sessionsEvents env dflt 0 pre := by
  refine ⟨?_, not_loop_in_extEvents _ 0 _, not_loop_in_sessionsEvents _ _ 0 _⟩
  have hfata : runFatal env dflt (pre ++ sn :: post) = runFatal env dflt post := by
    rw [runFatal_append env dflt pre (sn :: post) hpre]
    simp [runFatal, hcr]
  have hev : sessionsEvents env dflt 0 (pre ++ sn :: post) =
      sessionsEvents env dflt 0 pre ++
        (.descStart pre.length :: .sessionRegistered s ::
          sessionsEvents env dflt (pre.length + 1) post) := by
    rw [sessionsEvents_append env dflt pre (sn :: post) 0 hpre]
    simp [sessionsEvents, hcr]
  unfold mainTrace
  rw [hread, hev, hfata]
  simp [List.append_assoc]

/-- Witness for C6: a single-descriptor configuration registers its session
and then enters the event loop. -/
theorem C6_witness :
    mainTrace envNoExt dfltC ⟨[], [snPlain]⟩ =
      extEvents envNoExt.extKnown 0 [] ++
        (sessionsEvents envNoExt dfltC 0 [] ++
          (.descStart 0 :: .sessionRegistered sPlainCreated ::
            (sessionsEvents envNoExt dfltC 1 [] ++
              (if runFatal envNoExt dfltC [] then []
               else [.monitorSetup, .eventLoopStart])))) ∧
    Event.eventLoopStart ∉ extEvents envNoExt.extKnown 0 [] ∧
    Event.eventLoopStart ∉ sessionsEvents envNoExt dfltC 0 [] :=
  C6_registered_immediately envNoExt dfltC [] [] [] snPlain sPlainCreated
    rfl rfl (by decide)

/-- C10 counterexample: the unknown extension name "frobnicate" appears in
the configuration file's Extensions list (with a false value); it is
ignored without any warning — refuting the claim that an unknown name in
the Extensions list is always warned about — while the run continues to the
event loop, and the same name via `-x` is fatal. -/
theorem C10_counterexample :
    handleOptX envNoExt.extKnown "frobnicate" = .usageExit 1 ∧
    extEntryEvents envNoExt.extKnown 0 ⟨some "frobnicate", false⟩ = [] ∧
    mainTrace envNoExt dfltC ⟨[⟨some "frobnicate", false⟩], []⟩ =
      [.monitorSetup, .eventLoopStart] :=
  ⟨rfl, rfl, rfl⟩

/-- C10 (amended): an unknown extension name via the `-x` option prints
usage and exits with status 1; in the configuration file's Extensions list
an entry enabling an unknown name is ignored with a warning, an entry with
a false value is ignored silently before name validation, and in either
case startup continues to the event loop. -/
theorem C10_unknown_extension_by_source (known : String → Bool) (nm : String)
    (i : Nat) (h : known nm = false) :
    handleOptX known nm = .usageExit 1 ∧
    extEntryEvents known i ⟨some nm, true⟩ = [.extWarnUnknown nm] ∧
    extEntryEvents known i ⟨some nm, false⟩ = [] ∧
    (∀ env dflt sns ex0 ex1 e, env.extKnown = known →
      env.configReadable = true → runFatal env dflt sns = false →
      e.name = some nm →
      (mainTrace env dflt ⟨ex0 ++ e :: ex1, sns⟩).getLast? =
        some .eventLoopStart) := by
  refine ⟨?_, ?_, ?_, ?_⟩
  · simp [handleOptX, h]
  · simp [extEntryEvents, h]
  · simp [extEntryEvents]
  · intro env dflt sns ex0 ex1 e hk hr hf hn
    exact mainTrace_getLast env dflt _ hr hf

/-- Witness for the amended C10 at a concrete unknown name. -/
theorem C10_amended_witness :
    handleOptX envNoExt.extKnown "frobnicate" = .usageExit 1 ∧
    (mainTrace envNoExt dfltC ⟨[⟨some "frobnicate", true⟩], []⟩).getLast? =
      some .eventLoopStart :=
  ⟨(C10_unknown_extension_by_source envNoExt.extKnown "frobnicate" 0 rfl).1,
   (C10_unknown_extension_by_source envNoExt.extKnown "frobnicate" 0 rfl).2.2.2
     envNoExt dfltC [] [] [] ⟨some "frobnicate", true⟩ rfl rfl rfl rfl⟩

end FreeBFD
